import Mathlib

/-!
Verification of the MCP-POC log-search servers (kibana/kibana.py,
kibana/elastic.py, elastic/elastic.py) against their specification.

The Python functions are shallowly embedded as Lean definitions.  Python
dicts and JSON payloads are modelled by an inductive `Json` type; Python
exceptions become `Except` values; numbers that the claims touch are
integers, so `Int` models them.  Each embedded definition is translated
clause by clause from the source file it names.
-/

namespace MCPPoc

/-- The single-quote character, written via its code point. -/
def squote : Char := Char.ofNat 39

/-- A one-character string holding a single quote. -/
def squoteStr : String := String.singleton squote

/-! ### Rison values and the State Encoder

`kibana/kibana.py`, `_encode_rison` (lines 25-73).  The input domain of the
encoder: Python values built from None, bool, int/float, str, list, dict.
Numbers are modelled as `Int` (every number the spec or the URL builder
feeds the encoder is an integer or a bool); dict entries keep insertion
order, as Python dicts do. -/
inductive Rison where
  | null
  | bool (b : Bool)
  | num (n : Int)
  | str (s : String)
  | arr (items : List Rison)
  | obj (entries : List (String × Rison))
deriving Repr

/-- The reserved characters of `_encode_rison`: the Python source builds
`special_chars = set("':!,()@- ")`. -/
def risonSpecialChars : List Char := [squote, ':', '!', ',', '(', ')', '@', '-', ' ']

/-- `obj.replace("'", "!'")` from `_encode_rison`: every single quote becomes
`!` followed by the quote. -/
def escapeSquote (s : String) : String :=
  String.mk (s.data.foldr (fun c acc => if c = squote then '!' :: squote :: acc else c :: acc) [])

/-- The string case of `_encode_rison` (kibana.py lines 52-60): quote-and-escape
when the string is empty or contains a reserved character, bare otherwise. -/
def encodeRisonString (s : String) : String :=
  if s.data.any (fun c => risonSpecialChars.contains c) || s = "" then
    squoteStr ++ escapeSquote s ++ squoteStr
  else
    s

mutual
/-- `_encode_rison` from kibana/kibana.py (lines 44-70), case by case:
None, True, False, numbers via decimal text, strings via
`encodeRisonString`, lists and dicts comma-joined recursively. -/
def encodeRison : Rison → String
  | .null => "!n"
  | .bool true => "!t"
  | .bool false => "!f"
  | .num n => toString n
  | .str s => encodeRisonString s
  | .arr [] => "!()"
  | .arr (x :: xs) => "!(" ++ encodeRisonList x xs ++ ")"
  | .obj [] => "()"
  | .obj (e :: es) => "(" ++ encodeRisonPairs e es ++ ")"
termination_by r => sizeOf r
decreasing_by all_goals simp_wf

/-- The `",".join(_encode_rison(item) for item in obj)` of the list case. -/
def encodeRisonList : Rison → List Rison → String
  | x, [] => encodeRison x
  | x, y :: ys => encodeRison x ++ "," ++ encodeRisonList y ys
termination_by x xs => 1 + sizeOf x + sizeOf xs
decreasing_by all_goals simp_wf <;> omega

/-- The `",".join(f"{key}:{_encode_rison(value)}" ...)` of the dict case. -/
def encodeRisonPairs : String × Rison → List (String × Rison) → String
  | (k, v), [] => k ++ ":" ++ encodeRison v
  | (k, v), e :: es => k ++ ":" ++ encodeRison v ++ "," ++ encodeRisonPairs e es
termination_by e es => 1 + sizeOf e + sizeOf es
decreasing_by all_goals simp_wf <;> omega
end

/-! ### Query documents

The Elasticsearch query body built by `search_kibana_logs`
(kibana/kibana.py lines 167-201) and by `search_elasticsearch_logs` /
`search_kibana_logs` (kibana/elastic.py lines 169-208 and 339-377).  The
nested Python dict is modelled field by field: the bool filter holds the
single range clause, the bool must list holds the free-text or match-all
clause, then the sort, size and optional projection clauses. -/

/-- One entry of the bool-query must list: either the
`query_string` clause (with its `analyze_wildcard` flag) or the
`match_all` clause. -/
inductive MustClause where
  | queryString (query : String) (analyzeWildcard : Bool)
  | matchAll
deriving Repr, DecidableEq

/-- The `range` filter clause on a field, with `gte`, `lte` and `format`. -/
structure RangeFilter where
  field : String
  gte : String
  lte : String
  format : String
deriving Repr, DecidableEq

/-- One sort clause: field name and order string. -/
structure SortClause where
  field : String
  order : String
deriving Repr, DecidableEq

/-- The compiled query body sent to the backend. `source` is the optional
projection clause (the Python dict only gains a `_source` key when a
non-empty field list is supplied). -/
structure QueryDocument where
  filter : List RangeFilter
  must : List MustClause
  sort : List SortClause
  size : Int
  source : Option (List String)
deriving Repr, DecidableEq

/-- Query construction in kibana/kibana.py `search_kibana_logs`
(lines 167-201): fixed sort on descending timestamp, must list holding the
query-string clause when `query` is non-empty and the match-all clause
otherwise, and a `_source` key only when `field_list` is truthy. -/
def kibanaEsQuery (time_from time_to query : String) (size : Int)
    (field_list : Option (List String)) : QueryDocument :=
  { filter := [{ field := "@timestamp", gte := time_from, lte := time_to,
                 format := "strict_date_optional_time" }]
    must := if query = "" then [.matchAll] else [.queryString query true]
    sort := [{ field := "@timestamp", order := "desc" }]
    size := size
    source := match field_list with
      | some l => if l = [] then none else some l
      | none => none }

/-- Query construction shared by kibana/elastic.py `search_elasticsearch_logs`
(lines 169-208) and `search_kibana_logs` (lines 339-377): identical to the
kibana.py body except that the sort clause is keyed by the caller-supplied
`sort_field` and `sort_order`. -/
def elasticQueryBody (time_from time_to query sort_field sort_order : String)
    (size : Int) (fields : Option (List String)) : QueryDocument :=
  { filter := [{ field := "@timestamp", gte := time_from, lte := time_to,
                 format := "strict_date_optional_time" }]
    must := if query = "" then [.matchAll] else [.queryString query true]
    sort := [{ field := sort_field, order := sort_order }]
    size := size
    source := match fields with
      | some l => if l = [] then none else some l
      | none => none }

/-- The ValueError message raised for a bad sort order in kibana/elastic.py
(lines 161-162 and 320-321). -/
def invalidSortMsg (sort_order : String) : String :=
  "Invalid sort_order: " ++ sort_order ++ ". Must be " ++ squoteStr ++ "desc"
    ++ squoteStr ++ " or " ++ squoteStr ++ "asc" ++ squoteStr ++ "."

/-- Control flow of `search_elasticsearch_logs` up to its single network
call: either the ValueError raised by the sort-order validation (before the
query body exists), or the query body handed to `client.search`. -/
inductive SearchStep where
  | validationError (msg : String)
  | request (doc : QueryDocument)
deriving Repr, DecidableEq

/-- kibana/elastic.py `search_elasticsearch_logs` (lines 160-217) up to the
network call: the sort order is validated first; only when it passes is the
query body built and sent. -/
def search_elasticsearch_logs_step (time_from time_to query sort_field sort_order : String)
    (size : Int) (fields : Option (List String)) : SearchStep :=
  if sort_order = "desc" ∨ sort_order = "asc" then
    .request (elasticQueryBody time_from time_to query sort_field sort_order size fields)
  else
    .validationError (invalidSortMsg sort_order)

/-- Number of query-string clauses in a must list. -/
def countQueryString (l : List MustClause) : Nat :=
  (l.filter fun c => match c with | .queryString _ _ => true | .matchAll => false).length

/-- Number of match-all clauses in a must list. -/
def countMatchAll (l : List MustClause) : Nat :=
  (l.filter fun c => match c with | .queryString _ _ => false | .matchAll => true).length

/-! ### The Kibana proxy path of kibana/elastic.py `search_kibana_logs` -/

/-- Python `a or b` for an optional string argument against an environment
default: `None` and the empty string are falsy. -/
def pyOr (arg : Option String) (env : String) : String :=
  match arg with
  | some s => if s = "" then env else s
  | none => env

/-- Python `s.rstrip("/")`: remove every trailing slash. -/
def rstripSlash (s : String) : String :=
  String.mk (s.data.reverse.dropWhile (fun c => c = '/')).reverse

/-- The environment-derived configuration constants of kibana/elastic.py
(lines 21-25). -/
structure ElasticEnv where
  ELASTIC_URL : String
  ELASTIC_API_KEY : String
  KIBANA_URL : String
  KIBANA_USERNAME : String
  KIBANA_PASSWORD : String
deriving Repr, DecidableEq

/-- Header and basic-auth preparation of kibana/elastic.py
`search_kibana_logs` (lines 379-389): the Authorization header is added
exactly when an API key is configured; the basic-auth tuple is set only in
the `elif` branch, when there is no API key and both username and password
are non-empty. -/
def prepareKibanaAuth (api_key username password : String) :
    List (String × String) × Option (String × String) :=
  let headers := [("Content-Type", "application/json"), ("kbn-xsrf", "true")]
  if api_key ≠ "" then
    (headers ++ [("Authorization", "ApiKey " ++ api_key)], none)
  else if username ≠ "" ∧ password ≠ "" then
    (headers, some (username, password))
  else
    (headers, none)

/-- Whether a header list carries an Authorization entry. -/
def hasAuthorizationHeader (headers : List (String × String)) : Bool :=
  headers.any (fun h => h.1 = "Authorization")

/-- Control flow of kibana/elastic.py `search_kibana_logs` up to its single
network call: the ValueError of the sort validation, the ValueError for a
missing Kibana URL, or the POST request with its body, headers and
basic-auth tuple. -/
inductive KibanaProxyStep where
  | validationError (msg : String)
  | configError (msg : String)
  | request (doc : QueryDocument) (headers : List (String × String))
      (auth : Option (String × String)) (url : String)
deriving Repr, DecidableEq

/-- kibana/elastic.py `search_kibana_logs` (lines 319-406) up to the network
call: validate the sort order, resolve each argument against the
environment with Python `or`, require a Kibana URL, then build the query
body, the headers and the auth tuple, and issue the single POST. -/
def search_kibana_logs_proxy_step (index_pattern time_from time_to query : String)
    (fields : Option (List String)) (sort_field sort_order : String) (size : Int)
    (kibana_url username password api_key : Option String) (env : ElasticEnv) :
    KibanaProxyStep :=
  if sort_order = "desc" ∨ sort_order = "asc" then
    let kurl := pyOr kibana_url env.KIBANA_URL
    let user := pyOr username env.KIBANA_USERNAME
    let pass := pyOr password env.KIBANA_PASSWORD
    let key := pyOr api_key env.ELASTIC_API_KEY
    if kurl = "" then
      .configError ("No Kibana URL configured. Provide kibana_url parameter or set KIBANA_URL in environment variables.")
    else
      let kurl := rstripSlash kurl
      let doc := elasticQueryBody time_from time_to query sort_field sort_order size fields
      let ha := prepareKibanaAuth key user pass
      .request doc ha.1 ha.2
        (kurl ++ "/api/console/proxy?path=" ++ index_pattern ++ "/_search&method=POST")
  else
    .validationError (invalidSortMsg sort_order)

/-- The fixed request headers of kibana/kibana.py `search_kibana_logs`
(lines 204-208): content type, xsrf token, and always the ApiKey
Authorization header; the `client.post` call there passes no basic-auth
tuple at all. -/
def kibanaToolHeaders (api_key : String) : List (String × String) :=
  [("Content-Type", "application/json"), ("kbn-xsrf", "true"),
   ("Authorization", "ApiKey " ++ api_key)]

/-! ### JSON payloads and the response normalizers

Backend responses are Python dicts produced by `response.json()` or the
Elasticsearch client.  They are modelled by `Json`; dict subscription,
`dict.get` and list iteration are modelled by fallible accessors whose
error value stands for the Python `KeyError` / `TypeError` that the
corresponding expression would raise. -/

/-- A parsed JSON value (numbers as integers: every number the claims
touch is an integer). -/
inductive Json where
  | null
  | bool (b : Bool)
  | num (n : Int)
  | str (s : String)
  | arr (items : List Json)
  | obj (entries : List (String × Json))
deriving Repr

/-- The Python exceptions a dict/list access can raise. -/
inductive PyErr where
  | typeError (msg : String)
  | keyError (key : String)
deriving Repr, DecidableEq

/-- Python `d[key]` for a string key: `KeyError` when the key is missing,
`TypeError` when the value is not a dict. -/
def Json.index (j : Json) (key : String) : Except PyErr Json :=
  match j with
  | .obj entries =>
    match entries.lookup key with
    | some v => .ok v
    | none => .error (.keyError key)
  | _ => .error (.typeError "string indices require a dict")

/-- Python `d.get(key, default)`: only valid on a dict. -/
def Json.getD (j : Json) (key : String) (default : Json) : Except PyErr Json :=
  match j with
  | .obj entries => .ok ((entries.lookup key).getD default)
  | _ => .error (.typeError "get requires a dict")

/-- Python `d.get(key)`: `none` models Python `None` for a missing key. -/
def Json.getOpt (j : Json) (key : String) : Except PyErr (Option Json) :=
  match j with
  | .obj entries => .ok (entries.lookup key)
  | _ => .error (.typeError "get requires a dict")

/-- Python `for x in v` where the code expects a list of hits. -/
def Json.asArray (j : Json) : Except PyErr (List Json) :=
  match j with
  | .arr items => .ok items
  | _ => .error (.typeError "expected a list")

/-- Whether a key is present at the top level of a dict value. -/
def Json.hasKey (j : Json) (key : String) : Bool :=
  match j with
  | .obj entries => (entries.lookup key).isSome
  | _ => false

/-- One formatted hit: the `_index`, `_id`, `_score` (None when absent)
and `_source` entries extracted by the hit comprehension shared by all
three response formatters. -/
structure FormattedHit where
  index : Json
  id : Json
  score : Option Json
  source : Json

/-- The formatted search response: `total`, `took` and the hit list. -/
structure FormattedResponse where
  total : Json
  took : Json
  hits : List FormattedHit

/-- The hit comprehension (kibana/kibana.py lines 91-99, and identically in
both kibana/elastic.py formatters): subscription on `_index`, `_id`,
`_source`, and `hit.get` on `_score`. -/
def formatHit (hit : Json) : Except PyErr FormattedHit := do
  let idx ← hit.index "_index"
  let hid ← hit.index "_id"
  let score ← hit.getOpt "_score"
  let src ← hit.index "_source"
  pure { index := idx, id := hid, score := score, source := src }

/-- The conditional expression
`total_hits["value"] if isinstance(total_hits, dict) else total_hits`
shared by kibana/kibana.py line 86 and kibana/elastic.py line 412. -/
def extractTotal (total_hits : Json) : Except PyErr Json :=
  match total_hits with
  | .obj entries => Json.index (.obj entries) "value"
  | other => pure other

/-- `_format_search_response` from kibana/kibana.py (lines 76-100): the
total accepts both the dict shape (then its `value` entry is taken) and
the bare shape; `took` defaults to 0 via `data.get`; the hits come from
`data["hits"]["hits"]`. -/
def formatSearchResponse (data : Json) : Except PyErr FormattedResponse := do
  let total_hits ← (← data.index "hits").index "total"
  let total_value ← extractTotal total_hits
  let took ← data.getD "took" (.num 0)
  let hitsVal ← (← data.index "hits").index "hits"
  let hitList ← hitsVal.asArray
  let fhits ← hitList.mapM formatHit
  pure { total := total_value, took := took, hits := fhits }

/-- The inline response formatting of kibana/elastic.py
`search_elasticsearch_logs` (lines 220-232): the total is always read as
`response["hits"]["total"]["value"]` (the dict shape only), and `took` is
a plain subscription with no default. -/
def elasticDirectFormat (response : Json) : Except PyErr FormattedResponse := do
  let total ← (← (← response.index "hits").index "total").index "value"
  let took ← response.index "took"
  let hitsVal ← (← response.index "hits").index "hits"
  let hitList ← hitsVal.asArray
  let fhits ← hitList.mapM formatHit
  pure { total := total, took := took, hits := fhits }

/-- The inline response formatting of kibana/elastic.py `search_kibana_logs`
(lines 411-423): the total accepts both shapes via the isinstance check,
and `took` is a plain subscription with no default. -/
def kibanaProxyFormat (data : Json) : Except PyErr FormattedResponse := do
  let total_hits ← (← data.index "hits").index "total"
  let total ← extractTotal total_hits
  let took ← data.index "took"
  let hitsVal ← (← data.index "hits").index "hits"
  let hitList ← hitsVal.asArray
  let fhits ← hitList.mapM formatHit
  pure { total := total, took := took, hits := fhits }

/-- Whether an `Except` computation succeeded. -/
def exceptOk {ε α : Type} : Except ε α → Bool
  | .ok _ => true
  | .error _ => false

/-! ### The tool boundary

kibana/kibana.py `search_kibana_logs` (lines 138-258) and kibana/elastic.py
`fetch_elasticsearch_logs` (lines 461-500) both return a JSON string: either
the formatted result or an error envelope built in an except branch.  The
outcome of the single HTTP attempt is an explicit input here; the payload
type records which of the two shapes was serialized. -/

/-- The outcome of the HTTP attempt inside the try block: the exception
raised by `raise_for_status`, a transport-level `httpx.RequestError`, or a
parsed 2xx body. -/
inductive HttpOutcome where
  | statusError (status : Int) (text : String)
  | transportError (msg : String)
  | success (body : Json)

/-- What the tool serializes to its caller: a result payload or an error
envelope with its `error`, `message` and optional `details` keys. -/
inductive ToolPayload where
  | result (r : FormattedResponse)
  | errorEnvelope (error : String) (message : String) (details : Option String)

/-- Rendering of `str(e)` for the exceptions our embedding models. -/
def pyErrText : PyErr → String
  | .typeError msg => msg
  | .keyError key => key

/-- kibana/kibana.py `search_kibana_logs` (lines 138-258) as a total map to
the serialized payload: the two configuration guards, then one branch per
except clause (`HTTPStatusError` to HTTPError, `RequestError` to
ConnectionError, everything raised while formatting to the catch-all
SearchError), and the result branch on success. -/
def search_kibana_logs_tool (env_url env_key : String) (outcome : HttpOutcome) :
    ToolPayload :=
  if env_url = "" then
    .errorEnvelope "ConfigurationError"
      "No Kibana URL configured. Set KIBANA_URL environment variable." none
  else if env_key = "" then
    .errorEnvelope "ConfigurationError"
      "No API key configured. Set KIBANA_API_KEY environment variable." none
  else
    match outcome with
    | .statusError status text =>
      .errorEnvelope "HTTPError" "Failed to search logs"
        (some ("HTTP " ++ toString status ++ ": " ++ text))
    | .transportError msg =>
      .errorEnvelope "ConnectionError" "Cannot connect to Kibana" (some msg)
    | .success body =>
      match formatSearchResponse body with
      | .ok r => .result r
      | .error e =>
        .errorEnvelope "SearchError" "Failed to search logs" (some (pyErrText e))

/-- kibana/elastic.py `fetch_elasticsearch_logs` (lines 469-500) as a total
map: the inner search either produced a formatted result or raised, and the
single `except Exception` branch turns any exception text into the error
envelope. -/
def fetch_elasticsearch_logs_tool (inner : Except String FormattedResponse) :
    ToolPayload :=
  match inner with
  | .ok r => .result r
  | .error e =>
    .errorEnvelope e "Failed to fetch logs. Check configuration and credentials." none

/-- A payload is structured: either a result, or an envelope with a
non-empty message. -/
def isStructuredPayload : ToolPayload → Bool
  | .result _ => true
  | .errorEnvelope _ message _ => message ≠ ""

/-- The error kinds kibana/kibana.py `search_kibana_logs` can emit. -/
def kibanaToolErrorKindOk : ToolPayload → Bool
  | .result _ => true
  | .errorEnvelope error _ _ =>
    error ∈ ["ConfigurationError", "HTTPError", "ConnectionError", "SearchError"]

/-! ### The Endpoint Fallback Executor

Modelled from the spec: the Endpoint Fallback Executor of spec section 4.3
does not exist as an explicit abstraction in src/ — the two cited call
sites each attempt a single hard-coded endpoint, and the spec's design
notes present the executor as the normalization of that multi-endpoint
pattern.  The definitions below follow the spec's words: candidates are
attempted strictly in order; a connectivity probe's success only sets the
reachable flag; a data fetch returns immediately on success; exhaustion
aggregates the reachable flag with the last failure detail. -/

/-- Modelled from the spec: the role of a candidate endpoint. -/
inductive CandidateRole where
  | connectivityProbe
  | dataFetch
deriving Repr, DecidableEq

/-- Modelled from the spec: one candidate endpoint (the transport fields
that do not influence control flow are reduced to the display name). -/
structure CandidateEndpoint where
  displayName : String
  role : CandidateRole
deriving Repr, DecidableEq

/-- Modelled from the spec: the outcome of attempting one candidate. -/
inductive AttemptResult where
  | success (payload : Json)
  | failure (detail : String)

/-- Whether an attempt succeeded. -/
def AttemptResult.isSuccess : AttemptResult → Bool
  | .success _ => true
  | .failure _ => false

/-- Modelled from the spec: the aggregated failure, carrying whether
connectivity was ever established and the last failure detail. -/
structure AggregatedFailure where
  reachable : Bool
  lastFailure : Option String

/-- Modelled from the spec: the aggregated message concatenates whether
connectivity was ever established with the last individual failure. -/
def aggregatedMessage (agg : AggregatedFailure) : String :=
  (if agg.reachable then "backend reachable but search failed"
   else "backend unreachable")
  ++ match agg.lastFailure with
     | some d => "; last failure: " ++ d
     | none => ""

/-- Modelled from the spec: the candidate loop, threading the reachable
flag and the last failure detail, and returning the list of candidates
actually attempted together with the result. -/
def executeFallbackAux (attempt : CandidateEndpoint → AttemptResult) :
    List CandidateEndpoint → Bool → Option String →
    List CandidateEndpoint × Except AggregatedFailure (Json × CandidateEndpoint)
  | [], reachable, lastFail => ([], .error ⟨reachable, lastFail⟩)
  | c :: rest, reachable, lastFail =>
    match c.role, attempt c with
    | .connectivityProbe, .success _ =>
      let r := executeFallbackAux attempt rest true lastFail
      (c :: r.1, r.2)
    | .connectivityProbe, .failure d =>
      let r := executeFallbackAux attempt rest reachable (some d)
      (c :: r.1, r.2)
    | .dataFetch, .success p => ([c], .ok (p, c))
    | .dataFetch, .failure d =>
      let r := executeFallbackAux attempt rest reachable (some d)
      (c :: r.1, r.2)

/-- Modelled from the spec: the executor starts unreachable with no
recorded failure. -/
def executeFallback (attempt : CandidateEndpoint → AttemptResult)
    (candidates : List CandidateEndpoint) :
    List CandidateEndpoint × Except AggregatedFailure (Json × CandidateEndpoint) :=
  executeFallbackAux attempt candidates false none

/-! ### Concrete payloads used to instantiate the theorems -/

/-- A well-formed response envelope with the given total value and took
value and no hits, as the backends return it. -/
def sampleSearchResponse (total took : Json) : Json :=
  .obj [("took", took), ("hits", .obj [("total", total), ("hits", .arr [])])]

/-- A response with hits but no took entry. -/
def responseWithoutTook : Json :=
  .obj [("hits", .obj [("total", .num 7), ("hits", .arr [])])]

/-- A probe followed by two data fetches, for exercising the executor. -/
def demoCandidates : List CandidateEndpoint :=
  [{ displayName := "probe", role := .connectivityProbe },
   { displayName := "fetch1", role := .dataFetch },
   { displayName := "fetch2", role := .dataFetch }]

/-- An attempt map where the probe succeeds, the first fetch fails and the
second fetch returns a payload. -/
def demoAttempt (c : CandidateEndpoint) : AttemptResult :=
  if c.displayName = "fetch2" then .success (.num 1)
  else if c.displayName = "probe" then .success .null
  else .failure "connection refused"

/-- An attempt map where only the probe succeeds. -/
def demoAttemptAllFail (c : CandidateEndpoint) : AttemptResult :=
  if c.role = .connectivityProbe then .success .null
  else .failure "HTTP 404"

/-! ## Theorems -/

/-- Inversion for a successful `Except` bind: both stages succeeded. -/
theorem exceptBind_ok {ε α β : Type} {x : Except ε α} {f : α → Except ε β} {b : β}
    (h : (x >>= f) = .ok b) : ∃ a, x = .ok a ∧ f a = .ok b := by
  cases x with
  | ok a => exact ⟨a, rfl, h⟩
  | error e => simp [Bind.bind, Except.bind] at h

/-- C3: the State Encoder applied to the mapping with key `a` bound to 1 and
key `b` bound to the list of true, null and the string `x`, in that
insertion order, returns exactly the string `(a:1,b:!(!t,!n,x))`. -/
theorem c3_rison_encoding_example :
    encodeRison (.obj [("a", .num 1), ("b", .arr [.bool true, .null, .str "x"])])
      = "(a:1,b:!(!t,!n,x))" := by
  simp [encodeRison, encodeRisonList, encodeRisonPairs, encodeRisonString,
    escapeSquote, squoteStr, squote, risonSpecialChars]
  rfl

/-- C4: the State Encoder returns a string bare exactly when it is non-empty
and free of the reserved characters; otherwise it escapes every internal
single quote as `!` plus quote and wraps the result in single quotes; the
empty string encodes to two quotes, `log.level` stays bare, and
`k8s-deployment` is wrapped in quotes. -/
theorem c4_string_encoding (s : String) :
    (s ≠ "" → (∀ c ∈ s.data, c ∉ risonSpecialChars) → encodeRisonString s = s)
  ∧ ((s = "" ∨ ∃ c ∈ s.data, c ∈ risonSpecialChars) →
      encodeRisonString s = squoteStr ++ escapeSquote s ++ squoteStr)
  ∧ encodeRisonString "" = squoteStr ++ squoteStr
  ∧ encodeRisonString "log.level" = "log.level"
  ∧ encodeRisonString "k8s-deployment" = squoteStr ++ "k8s-deployment" ++ squoteStr := by
  refine ⟨?_, ?_, by decide, by decide, by decide⟩
  · intro hne hall
    unfold encodeRisonString
    rw [if_neg]
    simp only [Bool.or_eq_true, List.any_eq_true, decide_eq_true_eq, not_or]
    constructor
    · rintro ⟨c, hc, hmem⟩
      exact hall c hc (by simpa [List.contains, List.elem_iff] using hmem)
    · exact hne
  · intro h
    unfold encodeRisonString
    rw [if_pos]
    simp only [Bool.or_eq_true, List.any_eq_true, decide_eq_true_eq]
    rcases h with h | ⟨c, hc, hmem⟩
    · exact Or.inr h
    · exact Or.inl ⟨c, hc, by simpa [List.contains, List.elem_iff] using hmem⟩

/-- C4 witness: the theorem applied at two concrete strings, one bare
(`message`, no reserved characters), one quoted (`a b`, contains a space). -/
theorem c4_string_encoding_witness :
    encodeRisonString "message" = "message"
  ∧ encodeRisonString "a b" = squoteStr ++ escapeSquote "a b" ++ squoteStr :=
  ⟨(c4_string_encoding "message").1 (by decide) (by decide),
   (c4_string_encoding "a b").2.1 (by decide)⟩

/-- C1: every compiled query document carries exactly one of the two
free-text/match-all must clauses: the query-string clause (with wildcard
analysis enabled) when the query is non-empty, the match-all clause when it
is empty — never both, never neither.  Proved for the kibana.py builder and
for the shared kibana/elastic.py builder. -/
theorem c1_exactly_one_query_clause
    (time_from time_to query sort_field sort_order : String)
    (size : Int) (fields : Option (List String)) :
    countQueryString (kibanaEsQuery time_from time_to query size fields).must
      + countMatchAll (kibanaEsQuery time_from time_to query size fields).must = 1
  ∧ countQueryString
        (elasticQueryBody time_from time_to query sort_field sort_order size fields).must
      + countMatchAll
        (elasticQueryBody time_from time_to query sort_field sort_order size fields).must = 1
  ∧ (query ≠ "" →
        (kibanaEsQuery time_from time_to query size fields).must
          = [.queryString query true]
      ∧ (elasticQueryBody time_from time_to query sort_field sort_order size fields).must
          = [.queryString query true])
  ∧ (query = "" →
        (kibanaEsQuery time_from time_to query size fields).must = [.matchAll]
      ∧ (elasticQueryBody time_from time_to query sort_field sort_order size fields).must
          = [.matchAll]) := by
  by_cases h : query = "" <;>
    simp [kibanaEsQuery, elasticQueryBody, countQueryString, countMatchAll, h]

/-- C1 witness: the theorem applied at a non-empty query and at the empty
query. -/
theorem c1_exactly_one_query_clause_witness :
    (kibanaEsQuery "now-15m" "now" "log.level:ERROR" 100 none).must
      = [.queryString "log.level:ERROR" true]
  ∧ (kibanaEsQuery "now-15m" "now" "" 100 none).must = [.matchAll] :=
  ⟨((c1_exactly_one_query_clause "now-15m" "now" "log.level:ERROR" "@timestamp" "desc"
      100 none).2.2.1 (by decide)).1,
   ((c1_exactly_one_query_clause "now-15m" "now" "" "@timestamp" "desc"
      100 none).2.2.2 rfl).1⟩

/-- C2: a sort order outside the two recognized values `desc` and `asc`
makes both kibana/elastic.py search functions fail with the sort-order
ValueError, before the query document is constructed and before any network
request is issued. -/
theorem c2_invalid_sort_rejected
    (index_pattern time_from time_to query sort_field sort_order : String)
    (size : Int) (fields : Option (List String))
    (kibana_url username password api_key : Option String) (env : ElasticEnv)
    (h : sort_order ≠ "desc" ∧ sort_order ≠ "asc") :
    search_elasticsearch_logs_step time_from time_to query sort_field sort_order size fields
      = .validationError (invalidSortMsg sort_order)
  ∧ search_kibana_logs_proxy_step index_pattern time_from time_to query fields
        sort_field sort_order size kibana_url username password api_key env
      = .validationError (invalidSortMsg sort_order)
  ∧ (∀ doc, search_elasticsearch_logs_step time_from time_to query sort_field sort_order
        size fields ≠ .request doc)
  ∧ (∀ doc headers auth url,
        search_kibana_logs_proxy_step index_pattern time_from time_to query fields
          sort_field sort_order size kibana_url username password api_key env
          ≠ .request doc headers auth url) := by
  have hcond : ¬(sort_order = "desc" ∨ sort_order = "asc") := by
    rintro (h1 | h2)
    exacts [h.1 h1, h.2 h2]
  refine ⟨?_, ?_, ?_, ?_⟩ <;>
    simp [search_elasticsearch_logs_step, search_kibana_logs_proxy_step, hcond]

/-- C2 witness: the theorem applied at the concrete sort order
`ascending`, which the code does not recognize. -/
theorem c2_invalid_sort_rejected_witness :
    search_elasticsearch_logs_step "now-15m" "now" "" "@timestamp" "ascending" 100 none
      = .validationError (invalidSortMsg "ascending") :=
  (c2_invalid_sort_rejected "logs" "now-15m" "now" "" "@timestamp" "ascending" 100 none
    none none none none ⟨"", "", "", "", ""⟩ (by decide)).1

/-- C5 counterexample: with resultLimit 20000 the compiled documents keep
size 20000: nothing clamps it to the 10000 maximum the claim names, in
either backend variant. -/
theorem c5_no_clamping_counterexample :
    (kibanaEsQuery "now-15m" "now" "" 20000 none).size = 20000
  ∧ ¬((kibanaEsQuery "now-15m" "now" "" 20000 none).size ≤ 10000)
  ∧ search_elasticsearch_logs_step "now-15m" "now" "" "@timestamp" "desc" 20000 none
      = .request (elasticQueryBody "now-15m" "now" "" "@timestamp" "desc" 20000 none)
  ∧ (elasticQueryBody "now-15m" "now" "" "@timestamp" "desc" 20000 none).size = 20000 := by
  refine ⟨rfl, by decide, ?_, rfl⟩
  simp [search_elasticsearch_logs_step]

/-- C5 amended: the caller-supplied resultLimit is passed through to the
size clause unchanged by every query builder; no maximum is enforced. -/
theorem c5_size_passthrough
    (time_from time_to query sort_field sort_order : String)
    (size : Int) (fields : Option (List String)) :
    (kibanaEsQuery time_from time_to query size fields).size = size
  ∧ (elasticQueryBody time_from time_to query sort_field sort_order size fields).size
      = size :=
  ⟨rfl, rfl⟩

/-- C9: exactly one authentication mechanism per outbound call: the
Authorization header is present iff an API key is configured, the basic
credentials are used only when no API key is configured and both username
and password are present, never both mechanisms at once; the kibana.py tool
always sends the ApiKey header. -/
theorem c9_exactly_one_auth_mechanism (api_key username password : String) :
    (hasAuthorizationHeader (prepareKibanaAuth api_key username password).1 = true
      ↔ api_key ≠ "")
  ∧ ((prepareKibanaAuth api_key username password).2
      = if api_key = "" ∧ username ≠ "" ∧ password ≠ "" then some (username, password)
        else none)
  ∧ ¬(hasAuthorizationHeader (prepareKibanaAuth api_key username password).1 = true
      ∧ ((prepareKibanaAuth api_key username password).2).isSome = true)
  ∧ hasAuthorizationHeader (kibanaToolHeaders api_key) = true := by
  by_cases hk : api_key = "" <;>
    by_cases hu : username = "" <;>
      by_cases hp : password = "" <;>
        simp [prepareKibanaAuth, hasAuthorizationHeader, kibanaToolHeaders, hk, hu, hp]

/-- C9 witness: the theorem applied with both mechanisms configured: the
API key wins and the basic-auth tuple stays empty. -/
theorem c9_exactly_one_auth_mechanism_witness :
    hasAuthorizationHeader (prepareKibanaAuth "KEY" "elastic" "changeme").1 = true
  ∧ (prepareKibanaAuth "KEY" "elastic" "changeme").2 = none :=
  ⟨(c9_exactly_one_auth_mechanism "KEY" "elastic" "changeme").1.mpr (by decide),
   by simpa using (c9_exactly_one_auth_mechanism "KEY" "elastic" "changeme").2.1⟩

/-- C6 counterexample: the inline normalizer of kibana/elastic.py
`search_elasticsearch_logs` rejects a response whose total is the bare
integer 42 (subscripting the integer with `value` raises TypeError), so not
every cited normalizer accepts both shapes. -/
theorem c6_bare_total_rejected_counterexample :
    elasticDirectFormat (sampleSearchResponse (.num 42) (.num 5))
      = .error (.typeError "string indices require a dict") := rfl

/-- C6 amended: the kibana/kibana.py normalizer and the Kibana-proxy
normalizer of kibana/elastic.py accept both total shapes (bare integer and
object with a value field) and emit the bare integer; the direct
Elasticsearch path accepts only the object shape and fails on a bare
integer. -/
theorem c6_total_both_shapes (n : Int) (took : Json) :
    formatSearchResponse (sampleSearchResponse (.obj [("value", .num n)]) took)
      = .ok { total := .num n, took := took, hits := [] }
  ∧ formatSearchResponse (sampleSearchResponse (.num n) took)
      = .ok { total := .num n, took := took, hits := [] }
  ∧ kibanaProxyFormat (sampleSearchResponse (.obj [("value", .num n)]) took)
      = .ok { total := .num n, took := took, hits := [] }
  ∧ kibanaProxyFormat (sampleSearchResponse (.num n) took)
      = .ok { total := .num n, took := took, hits := [] }
  ∧ elasticDirectFormat (sampleSearchResponse (.obj [("value", .num n)]) took)
      = .ok { total := .num n, took := took, hits := [] }
  ∧ exceptOk (elasticDirectFormat (sampleSearchResponse (.num n) took)) = false :=
  ⟨rfl, rfl, rfl, rfl, rfl, rfl⟩

/-- C10: whenever kibana/kibana.py `_format_search_response` accepts a
response that has no top-level took entry, the formatted result reports an
elapsed time of 0. -/
theorem c10_missing_took_defaults_to_zero (data : Json) (r : FormattedResponse)
    (habs : data.hasKey "took" = false)
    (hok : formatSearchResponse data = .ok r) :
    r.took = .num 0 := by
  cases data with
  | obj entries =>
    have hnone : List.lookup "took" entries = none := by
      cases hl : List.lookup "took" entries with
      | none => rfl
      | some v => rw [Json.hasKey, hl] at habs; simp at habs
    unfold formatSearchResponse at hok
    obtain ⟨hits, h1, hok⟩ := exceptBind_ok hok
    obtain ⟨th, h2, hok⟩ := exceptBind_ok hok
    obtain ⟨tv, h3, hok⟩ := exceptBind_ok hok
    obtain ⟨tk, h4, hok⟩ := exceptBind_ok hok
    obtain ⟨hits2, h5, hok⟩ := exceptBind_ok hok
    obtain ⟨hv, h6, hok⟩ := exceptBind_ok hok
    obtain ⟨hl, h7, hok⟩ := exceptBind_ok hok
    obtain ⟨fh, h8, hok⟩ := exceptBind_ok hok
    have htk : tk = .num 0 := by
      have := h4
      simp [Json.getD, hnone] at this
      exact this.symm
    have hr : ({ total := tv, took := tk, hits := fh } : FormattedResponse) = r := by
      simpa [pure, Except.pure] using hok
    rw [← hr, htk]
  | null => simp [formatSearchResponse, Json.index, Bind.bind, Except.bind] at hok
  | bool b => simp [formatSearchResponse, Json.index, Bind.bind, Except.bind] at hok
  | num m => simp [formatSearchResponse, Json.index, Bind.bind, Except.bind] at hok
  | str s => simp [formatSearchResponse, Json.index, Bind.bind, Except.bind] at hok
  | arr items => simp [formatSearchResponse, Json.index, Bind.bind, Except.bind] at hok

/-- C10 witness: the theorem applied at a concrete accepted response with
no took entry. -/
theorem c10_missing_took_defaults_to_zero_witness :
    Json.hasKey responseWithoutTook "took" = false
  ∧ FormattedResponse.took { total := .num 7, took := .num 0, hits := [] } = .num 0 :=
  ⟨by rfl,
   c10_missing_took_defaults_to_zero responseWithoutTook
     { total := .num 7, took := .num 0, hits := [] } (by rfl) (by rfl)⟩

/-- C8: both public tool operations map every modelled outcome — missing
configuration, HTTP error status, transport failure, unformattable body,
or success — to a structured payload (a result or an error envelope with a
non-empty message and, for the kibana.py tool, one of its four error
kinds); no exception crosses the tool boundary. -/
theorem c8_structured_payloads (env_url env_key : String) (outcome : HttpOutcome)
    (inner : Except String FormattedResponse) :
    isStructuredPayload (search_kibana_logs_tool env_url env_key outcome) = true
  ∧ kibanaToolErrorKindOk (search_kibana_logs_tool env_url env_key outcome) = true
  ∧ isStructuredPayload (fetch_elasticsearch_logs_tool inner) = true := by
  have hmain : isStructuredPayload (search_kibana_logs_tool env_url env_key outcome) = true
      ∧ kibanaToolErrorKindOk (search_kibana_logs_tool env_url env_key outcome) = true := by
    by_cases hu : env_url = ""
    · simp [search_kibana_logs_tool, isStructuredPayload, kibanaToolErrorKindOk, hu]
    · by_cases hk : env_key = ""
      · simp [search_kibana_logs_tool, isStructuredPayload, kibanaToolErrorKindOk, hu, hk]
      · cases outcome with
        | statusError status text =>
          simp [search_kibana_logs_tool, isStructuredPayload, kibanaToolErrorKindOk, hu, hk]
        | transportError msg =>
          simp [search_kibana_logs_tool, isStructuredPayload, kibanaToolErrorKindOk, hu, hk]
        | success body =>
          cases hfmt : formatSearchResponse body <;>
            simp [search_kibana_logs_tool, isStructuredPayload, kibanaToolErrorKindOk,
              hu, hk, hfmt]
  refine ⟨hmain.1, hmain.2, ?_⟩
  cases inner <;> simp [fetch_elasticsearch_logs_tool, isStructuredPayload]

/-- The executor attempts candidates strictly in order: what it attempted
is an initial segment of the candidate list. -/
theorem executeFallbackAux_attempted_take (attempt : CandidateEndpoint → AttemptResult) :
    ∀ (cs : List CandidateEndpoint) (b : Bool) (f : Option String),
      ∃ k, (executeFallbackAux attempt cs b f).1 = cs.take k := by
  intro cs
  induction cs with
  | nil => intro b f; exact ⟨0, rfl⟩
  | cons c0 rest ih =>
    intro b f
    cases hr : c0.role with
    | connectivityProbe =>
      cases ha : attempt c0 with
      | success q =>
        obtain ⟨k, hk⟩ := ih true f
        exact ⟨k + 1, by simp only [executeFallbackAux, hr, ha, List.take_succ_cons, hk]⟩
      | failure d =>
        obtain ⟨k, hk⟩ := ih b (some d)
        exact ⟨k + 1, by simp only [executeFallbackAux, hr, ha, List.take_succ_cons, hk]⟩
    | dataFetch =>
      cases ha : attempt c0 with
      | success q =>
        exact ⟨1, by simp only [executeFallbackAux, hr, ha, List.take_succ_cons, List.take_zero]⟩
      | failure d =>
        obtain ⟨k, hk⟩ := ih b (some d)
        exact ⟨k + 1, by simp only [executeFallbackAux, hr, ha, List.take_succ_cons, hk]⟩

/-- Prepending to a list keeps its known last element. -/
theorem getLast?_cons_of_getLast? {α : Type} {l : List α} {a c : α}
    (h : l.getLast? = some c) : (a :: l).getLast? = some c := by
  cases l with
  | nil => simp at h
  | cons x xs => rw [List.getLast?_cons_cons]; exact h

/-- Membership in the dropLast of a cons splits into the head or the
tail's dropLast. -/
theorem mem_dropLast_cons {α : Type} {l : List α} {a c2 : α}
    (h : c2 ∈ (a :: l).dropLast) : c2 = a ∨ c2 ∈ l.dropLast := by
  cases l with
  | nil => simp [List.dropLast] at h
  | cons x xs => rw [List.dropLast_cons₂] at h; simpa using h

/-- When the executor returns a payload, it came from a successful data
fetch, that candidate was the last one attempted, and no earlier attempted
candidate was a successful data fetch. -/
theorem executeFallbackAux_ok (attempt : CandidateEndpoint → AttemptResult) :
    ∀ (cs : List CandidateEndpoint) (b : Bool) (f : Option String) (p : Json)
      (c : CandidateEndpoint),
      (executeFallbackAux attempt cs b f).2 = .ok (p, c) →
      c.role = .dataFetch ∧ attempt c = .success p
      ∧ (executeFallbackAux attempt cs b f).1.getLast? = some c
      ∧ ∀ c2 ∈ (executeFallbackAux attempt cs b f).1.dropLast,
          ¬(c2.role = .dataFetch ∧ (attempt c2).isSuccess = true) := by
  intro cs
  induction cs with
  | nil => intro b f p c h; simp [executeFallbackAux] at h
  | cons c0 rest ih =>
    intro b f p c h
    cases hr : c0.role with
    | connectivityProbe =>
      cases ha : attempt c0 with
      | success q =>
        simp only [executeFallbackAux, hr, ha] at h ⊢
        obtain ⟨h1, h2, h3, h4⟩ := ih true f p c h
        refine ⟨h1, h2, getLast?_cons_of_getLast? h3, ?_⟩
        intro c2 hc2
        rcases mem_dropLast_cons hc2 with rfl | hc2
        · rintro ⟨hrole, _⟩; rw [hr] at hrole; simp at hrole
        · exact h4 c2 hc2
      | failure d =>
        simp only [executeFallbackAux, hr, ha] at h ⊢
        obtain ⟨h1, h2, h3, h4⟩ := ih b (some d) p c h
        refine ⟨h1, h2, getLast?_cons_of_getLast? h3, ?_⟩
        intro c2 hc2
        rcases mem_dropLast_cons hc2 with rfl | hc2
        · rintro ⟨hrole, _⟩; rw [hr] at hrole; simp at hrole
        · exact h4 c2 hc2
    | dataFetch =>
      cases ha : attempt c0 with
      | success q =>
        simp only [executeFallbackAux, hr, ha] at h ⊢
        obtain ⟨rfl, rfl⟩ : q = p ∧ c0 = c := by
          have := h
          simp only [Except.ok.injEq, Prod.mk.injEq] at this
          exact this
        exact ⟨hr, ha, rfl, by intro c2 hc2; simp [List.dropLast] at hc2⟩
      | failure d =>
        simp only [executeFallbackAux, hr, ha] at h ⊢
        obtain ⟨h1, h2, h3, h4⟩ := ih b (some d) p c h
        refine ⟨h1, h2, getLast?_cons_of_getLast? h3, ?_⟩
        intro c2 hc2
        rcases mem_dropLast_cons hc2 with rfl | hc2
        · rintro ⟨_, hsucc⟩; rw [ha] at hsucc
          simp [AttemptResult.isSuccess] at hsucc
        · exact h4 c2 hc2

/-- When every data fetch fails, the executor returns the aggregated
failure, whose reachable flag records exactly whether some connectivity
probe succeeded. -/
theorem executeFallbackAux_allfail (attempt : CandidateEndpoint → AttemptResult) :
    ∀ (cs : List CandidateEndpoint) (b : Bool) (f : Option String),
      (∀ c ∈ cs, c.role = .dataFetch → (attempt c).isSuccess = false) →
      ∃ agg, (executeFallbackAux attempt cs b f).2 = .error agg
        ∧ agg.reachable
            = (b || cs.any fun c =>
                decide (c.role = .connectivityProbe) && (attempt c).isSuccess) := by
  intro cs
  induction cs with
  | nil => intro b f hall; exact ⟨⟨b, f⟩, rfl, by simp⟩
  | cons c0 rest ih =>
    intro b f hall
    have hrest : ∀ c ∈ rest, c.role = .dataFetch → (attempt c).isSuccess = false :=
      fun c hc hd => hall c (List.mem_cons_of_mem _ hc) hd
    cases hr : c0.role with
    | connectivityProbe =>
      cases ha : attempt c0 with
      | success q =>
        obtain ⟨agg, h1, h2⟩ := ih true f hrest
        refine ⟨agg, by simp only [executeFallbackAux, hr, ha]; exact h1, ?_⟩
        rw [h2]; simp [hr, ha, AttemptResult.isSuccess]
      | failure d =>
        obtain ⟨agg, h1, h2⟩ := ih b (some d) hrest
        refine ⟨agg, by simp only [executeFallbackAux, hr, ha]; exact h1, ?_⟩
        rw [h2]; simp [hr, ha, AttemptResult.isSuccess]
    | dataFetch =>
      cases ha : attempt c0 with
      | success q =>
        exfalso
        have := hall c0 (List.mem_cons_self _ _) hr
        rw [ha] at this
        simp [AttemptResult.isSuccess] at this
      | failure d =>
        obtain ⟨agg, h1, h2⟩ := ih b (some d) hrest
        refine ⟨agg, by simp only [executeFallbackAux, hr, ha]; exact h1, ?_⟩
        rw [h2]; simp [hr, ha, AttemptResult.isSuccess]

/-- C7: the Fallback Executor attempts candidates strictly in order; when
it returns a payload it is the first successful data fetch, that candidate
is the last one attempted and nothing after it is attempted; when every
data fetch fails it returns an aggregated failure whose reachable flag and
message report exactly whether a connectivity probe ever succeeded. -/
theorem c7_fallback_executor (attempt : CandidateEndpoint → AttemptResult)
    (cs : List CandidateEndpoint) :
    (∃ k, (executeFallback attempt cs).1 = cs.take k)
  ∧ (∀ p c, (executeFallback attempt cs).2 = .ok (p, c) →
      c.role = .dataFetch ∧ attempt c = .success p
      ∧ (executeFallback attempt cs).1.getLast? = some c
      ∧ ∀ c2 ∈ (executeFallback attempt cs).1.dropLast,
          ¬(c2.role = .dataFetch ∧ (attempt c2).isSuccess = true))
  ∧ ((∀ c ∈ cs, c.role = .dataFetch → (attempt c).isSuccess = false) →
      ∃ agg, (executeFallback attempt cs).2 = .error agg
        ∧ agg.reachable
            = (cs.any fun c =>
                decide (c.role = .connectivityProbe) && (attempt c).isSuccess)
        ∧ ∃ tail, aggregatedMessage agg
            = (if agg.reachable then "backend reachable but search failed"
               else "backend unreachable") ++ tail) := by
  refine ⟨executeFallbackAux_attempted_take attempt cs false none,
    fun p c h => executeFallbackAux_ok attempt cs false none p c h,
    fun hall => ?_⟩
  obtain ⟨agg, h1, h2⟩ := executeFallbackAux_allfail attempt cs false none hall
  refine ⟨agg, h1, by simpa using h2, ?_⟩
  exact ⟨match agg.lastFailure with
    | some d => "; last failure: " ++ d
    | none => "", rfl⟩

/-- C7 witness: the theorem applied to the three demo candidates, once with
the second fetch succeeding (its payload is returned, the first fetch
failed, nothing later was attempted) and once with every fetch failing
(the aggregated failure reports the successful probe). -/
theorem c7_fallback_executor_witness :
    ((⟨"fetch2", .dataFetch⟩ : CandidateEndpoint).role = .dataFetch
      ∧ demoAttempt ⟨"fetch2", .dataFetch⟩ = .success (.num 1)
      ∧ (executeFallback demoAttempt demoCandidates).1.getLast?
          = some ⟨"fetch2", .dataFetch⟩
      ∧ ∀ c2 ∈ (executeFallback demoAttempt demoCandidates).1.dropLast,
          ¬(c2.role = .dataFetch ∧ (demoAttempt c2).isSuccess = true))
  ∧ (∃ agg, (executeFallback demoAttemptAllFail demoCandidates).2 = .error agg
      ∧ agg.reachable
          = (demoCandidates.any fun c =>
              decide (c.role = .connectivityProbe) && (demoAttemptAllFail c).isSuccess)
      ∧ ∃ tail, aggregatedMessage agg
          = (if agg.reachable then "backend reachable but search failed"
             else "backend unreachable") ++ tail) :=
  ⟨(c7_fallback_executor demoAttempt demoCandidates).2.1 (.num 1)
      ⟨"fetch2", .dataFetch⟩ rfl,
   (c7_fallback_executor demoAttemptAllFail demoCandidates).2.2 (by decide)⟩

end MCPPoc





